import Mathlib

/-!
Verification of the Fixture Difficulty Analysis Engine
(`src/agents/fixture_agent.py`).

The Python code is shallowly embedded over exact rational arithmetic:

* Python `float` values become `ℚ` (all arithmetic in the engine is
  rational: divisions by 200, 4, 3, 1.3, …).
* Python `round(x, p)` (round-half-to-even on exact values) becomes
  `roundTo p x`.
* Loosely typed database / dict values that the code pushes through
  `int(...)` become `SVal` (`null` for `None`/SQL NULL, `iv n` for an
  int-convertible value, `bad` for a non-null value on which `int`
  raises); `int(...)` becomes `toInt : SVal → Option ℤ`, and an
  exception raised during a computation becomes an `Option`/skip path.
* The `fixtures` table is a `List Row`; the SQL queries of the engine
  become filter / sort / take functions over that list.
-/

namespace FantasyPL

/-! ### Python rounding -/

/-- Round-half-to-even on an exact rational, Python's `round` to an
integer (banker's rounding). -/
def rhe (y : ℚ) : ℤ :=
  if y - ⌊y⌋ < 1/2 then ⌊y⌋
  else if 1/2 < y - ⌊y⌋ then ⌊y⌋ + 1
  else if ⌊y⌋ % 2 = 0 then ⌊y⌋ else ⌊y⌋ + 1

/-- Python's `round(x, p)` on an exact rational. -/
def roundTo (p : ℕ) (x : ℚ) : ℚ := (rhe (x * 10 ^ p) : ℚ) / 10 ^ p

/-! ### Loosely typed values -/

/-- A loosely typed score / field value as seen by the Python code:
`null` is `None` (SQL NULL), `iv n` is a value `int(...)` converts to
`n`, `bad` is a non-null truthy value on which `int(...)` raises. -/
inductive SVal where
  | null : SVal
  | iv (n : ℤ) : SVal
  | bad : SVal
deriving DecidableEq

/-- Python `int(v)`: `none` models a raised `ValueError`/`TypeError`. -/
def toInt : SVal → Option ℤ
  | SVal.iv n => some n
  | _ => none

/-- `int(v) if v is not None else 0`, the score conversion used in the
form and head-to-head loops. -/
def scoreToInt : SVal → Option ℤ
  | SVal.null => some 0
  | SVal.iv n => some n
  | SVal.bad => none

/-- Python truthiness of an `SVal` (used by `fixture.get('gameweek') or
fixture.get('event', 1)`). -/
def truthy : SVal → Bool
  | SVal.null => false
  | SVal.iv n => decide (n ≠ 0)
  | SVal.bad => true

/-- A kickoff-time column value: SQL NULL, an unparsable string (no
`T` / `fromisoformat` failure), or a parseable timestamp measured in
days (fractional part = time of day). -/
inductive KVal where
  | null : KVal
  | bad : KVal
  | time (t : ℚ) : KVal
deriving DecidableEq

/-- The kickoff-time parsing loop of `calculate_fixture_congestion`:
null and unparsable values are skipped, parseable ones kept. -/
def parseKick : KVal → Option ℚ
  | KVal.time t => some t
  | _ => none

/-- Sort key used to model `ORDER BY kickoff_time` (only the relative
order of parseable timestamps matters to the engine). -/
def kickKey : KVal → ℚ
  | KVal.time t => t
  | _ => 0

/-! ### The fixtures table -/

/-- One row of the `fixtures` table as consumed by the engine. -/
structure Row where
  team_h : ℤ
  team_a : ℤ
  team_h_score : SVal
  team_a_score : SVal
  kickoff_time : KVal
  finished : Bool
  gameweek : ℤ
deriving DecidableEq

/-- Insert a row into a list sorted by descending kickoff key. -/
def insertDescRow (r : Row) : List Row → List Row
  | [] => [r]
  | x :: xs =>
    if kickKey x.kickoff_time ≤ kickKey r.kickoff_time then r :: x :: xs
    else x :: insertDescRow r xs

/-- `ORDER BY kickoff_time DESC` (insertion sort). -/
def sortByKickDesc : List Row → List Row
  | [] => []
  | r :: rs => insertDescRow r (sortByKickDesc rs)

/-- WHERE clause of the form query: the team is involved, the fixture
is finished and both scores are non-NULL. -/
def formRowPred (team_id : ℤ) (r : Row) : Bool :=
  decide ((r.team_h = team_id ∨ r.team_a = team_id) ∧ r.finished = true ∧
    r.team_h_score ≠ SVal.null ∧ r.team_a_score ≠ SVal.null)

/-- WHERE clause of the head-to-head query. -/
def h2hRowPred (team1_id team2_id : ℤ) (r : Row) : Bool :=
  decide (((r.team_h = team1_id ∧ r.team_a = team2_id) ∨
      (r.team_h = team2_id ∧ r.team_a = team1_id)) ∧ r.finished = true ∧
    r.team_h_score ≠ SVal.null ∧ r.team_a_score ≠ SVal.null)

/-- WHERE clause of the congestion query (note: no `finished` filter). -/
def congRowPred (team_id start_gw end_gw : ℤ) (r : Row) : Bool :=
  decide ((r.team_h = team_id ∨ r.team_a = team_id) ∧
    start_gw ≤ r.gameweek ∧ r.gameweek ≤ end_gw)

/-- Any row involving the team, in any state. -/
def involvesTeam (team_id : ℤ) (r : Row) : Bool :=
  decide (r.team_h = team_id ∨ r.team_a = team_id)

/-- Any finished row involving the team. -/
def finishedInvolving (team_id : ℤ) (r : Row) : Bool :=
  decide ((r.team_h = team_id ∨ r.team_a = team_id) ∧ r.finished = true)

/-- The form query of `calculate_team_form`: filter, order by kickoff
descending, `LIMIT games_back`. -/
def formQuery (s : List Row) (team_id : ℤ) (games_back : ℕ) : List Row :=
  (sortByKickDesc (s.filter (formRowPred team_id))).take games_back

/-- The head-to-head query: filter, order by kickoff descending,
`LIMIT seasons_back * 2`. -/
def h2hQuery (s : List Row) (team1_id team2_id : ℤ) (seasons_back : ℕ) : List Row :=
  (sortByKickDesc (s.filter (h2hRowPred team1_id team2_id))).take (seasons_back * 2)

/-! ### FormAnalyzer -/

/-- The per-row tallies of the form loop. -/
structure FormTally where
  wins : ℕ
  draws : ℕ
  losses : ℕ
  goals_for : ℤ
  goals_against : ℤ
deriving DecidableEq

/-- The two score conversions of a result row; `none` models the
`(ValueError, TypeError)` caught for that row. -/
def rowScores (r : Row) : Option (ℤ × ℤ) :=
  match scoreToInt r.team_h_score, scoreToInt r.team_a_score with
  | some hs, some as2 => some (hs, as2)
  | _, _ => none

/-- A row whose score data converts cleanly; rows with
`isGoodRow r = false` are the ones skipped with a warning. -/
def isGoodRow (r : Row) : Bool := (rowScores r).isSome

/-- One iteration of the `calculate_team_form` tally loop. -/
def formStep (team_id : ℤ) (t : FormTally) (r : Row) : FormTally :=
  match rowScores r with
  | none => t
  | some (hs, as2) =>
    let is_home := r.team_h = team_id
    let team_score := if is_home then hs else as2
    let opp_score := if is_home then as2 else hs
    { wins := t.wins + (if opp_score < team_score then 1 else 0)
      draws := t.draws + (if team_score = opp_score then 1 else 0)
      losses := t.losses + (if team_score < opp_score then 1 else 0)
      goals_for := t.goals_for + team_score
      goals_against := t.goals_against + opp_score }

/-- The full tally loop of `calculate_team_form`. -/
def formTallyOf (team_id : ℤ) (results : List Row) : FormTally :=
  results.foldl (formStep team_id) ⟨0, 0, 0, 0, 0⟩

/-- The form snapshot dict returned by `calculate_team_form`. -/
structure FormSnapshot where
  games_played : ℕ
  wins : ℕ
  draws : ℕ
  losses : ℕ
  goals_for : ℤ
  goals_against : ℤ
  form_score : ℚ
  attack_strength : ℚ
  defense_strength : ℚ
deriving DecidableEq

/-- The neutral snapshot returned when the form query finds nothing. -/
def neutralFormSnapshot : FormSnapshot := ⟨0, 0, 0, 0, 0, 0, 50, 1, 1⟩

/-- `LEAGUE_AVG_GOALS = 1.3`. -/
def avgGoalsPerGame : ℚ := 13 / 10

/-- The body of `calculate_team_form` after its query: neutral snapshot
on an empty result set, otherwise the tally loop followed by the
derived scores; `games_played = len(results)` counts every queried row,
skipped or not. -/
def formFromResults (team_id : ℤ) (results : List Row) : FormSnapshot :=
  if results = [] then neutralFormSnapshot
  else
    { games_played := results.length
      wins := (formTallyOf team_id results).wins
      draws := (formTallyOf team_id results).draws
      losses := (formTallyOf team_id results).losses
      goals_for := (formTallyOf team_id results).goals_for
      goals_against := (formTallyOf team_id results).goals_against
      form_score := roundTo 1 (if 0 < results.length then
        (((formTallyOf team_id results).wins * 3 + (formTallyOf team_id results).draws : ℕ) : ℚ) /
          ((results.length : ℚ) * 3) * 100
        else 50)
      attack_strength := roundTo 2 (if 0 < results.length then
        ((formTallyOf team_id results).goals_for : ℚ) / (results.length : ℚ) / avgGoalsPerGame
        else 1)
      defense_strength := roundTo 2 (if 0 < (formTallyOf team_id results).goals_against ∧
          0 < results.length then
        avgGoalsPerGame / (((formTallyOf team_id results).goals_against : ℚ) / (results.length : ℚ))
        else 1) }

/-- `FormAnalyzer.calculate_team_form(team_id, games_back)`. -/
def calculate_team_form (s : List Row) (team_id : ℤ) (games_back : ℕ) : FormSnapshot :=
  formFromResults team_id (formQuery s team_id games_back)

/-- The head-to-head record dict. -/
structure H2HRecord where
  total_games : ℕ
  team1_wins : ℕ
  team1_draws : ℕ
  team1_losses : ℕ
  team1_win_rate : ℚ
deriving DecidableEq

/-- Tallies of the head-to-head loop; `total` is incremented inside
the per-row `try`, so skipped rows do not count. -/
structure H2HTally where
  total : ℕ
  wins : ℕ
  draws : ℕ
  losses : ℕ
deriving DecidableEq

/-- One iteration of the `get_head_to_head_record` loop. -/
def h2hStep (team1_id : ℤ) (t : H2HTally) (r : Row) : H2HTally :=
  match rowScores r with
  | none => t
  | some (hs, as2) =>
    let team1_is_home := r.team_h = team1_id
    let team1_score := if team1_is_home then hs else as2
    let team2_score := if team1_is_home then as2 else hs
    { total := t.total + 1
      wins := t.wins + (if team2_score < team1_score then 1 else 0)
      draws := t.draws + (if team1_score = team2_score then 1 else 0)
      losses := t.losses + (if team1_score < team2_score then 1 else 0) }

/-- The full head-to-head tally loop. -/
def h2hTallyOf (team1_id : ℤ) (results : List Row) : H2HTally :=
  results.foldl (h2hStep team1_id) ⟨0, 0, 0, 0⟩

/-- The body of `get_head_to_head_record` after its query. -/
def h2hFromResults (team1_id : ℤ) (results : List Row) : H2HRecord :=
  { total_games := (h2hTallyOf team1_id results).total
    team1_wins := (h2hTallyOf team1_id results).wins
    team1_draws := (h2hTallyOf team1_id results).draws
    team1_losses := (h2hTallyOf team1_id results).losses
    team1_win_rate := if 0 < (h2hTallyOf team1_id results).total then
      ((h2hTallyOf team1_id results).wins : ℚ) / ((h2hTallyOf team1_id results).total : ℚ)
      else 1/2 }

/-- `FormAnalyzer.get_head_to_head_record(team1_id, team2_id, seasons_back)`. -/
def get_head_to_head_record (s : List Row) (team1_id team2_id : ℤ)
    (seasons_back : ℕ) : H2HRecord :=
  h2hFromResults team1_id (h2hQuery s team1_id team2_id seasons_back)

/-! ### CongestionAnalyzer -/

/-- The keys of `CongestionAnalyzer.european_teams`. -/
def europeanTeams : List ℤ := [1, 2, 3, 4, 5, 6, 7, 8]

/-- The congestion profile dict. -/
structure CongestionProfile where
  fixture_count : ℕ
  congestion_level : String
  congestion_score : ℚ
  days_between_fixtures : List ℤ
  has_european_football : Bool
deriving DecidableEq

/-- The congestion classification chain, evaluated in order with the
first match winning (scores `0.8`, `0.6`, `0.5`, `0.2`). -/
def classifyCongestion (fixture_count : ℕ) (avg_days_between : ℚ) : String × ℚ :=
  if 4 ≤ fixture_count ∧ avg_days_between < 4 then ("high", 4/5)
  else if 3 ≤ fixture_count ∧ avg_days_between < 5 then ("medium", 3/5)
  else if 2 ≤ fixture_count ∧ avg_days_between < 3 then ("medium", 1/2)
  else ("low", 1/5)

/-- The classified score plus the `+0.2` continental bonus, clamped by
`min(congestion_score, 1.0)`. -/
def finalCongestionScore (fixture_count : ℕ) (euro : Bool) (avg_days_between : ℚ) : ℚ :=
  min ((classifyCongestion fixture_count avg_days_between).2 + (if euro then 1/5 else 0)) 1

/-- Insert into an ascending list of timestamps (`fixture_dates.sort()`). -/
def insertAscQ (t : ℚ) : List ℚ → List ℚ
  | [] => [t]
  | x :: xs => if t ≤ x then t :: x :: xs else x :: insertAscQ t xs

/-- Ascending insertion sort on timestamps. -/
def sortAscQ : List ℚ → List ℚ
  | [] => []
  | t :: ts => insertAscQ t (sortAscQ ts)

/-- Day gaps between consecutive sorted kickoff timestamps;
`(d2 - d1).days` floors the difference. -/
def daysBetween : List ℚ → List ℤ
  | t1 :: t2 :: rest => ⌊t2 - t1⌋ :: daysBetween (t2 :: rest)
  | _ => []

/-- `np.mean(days_between) if days_between else 7`. -/
def avgDaysOf (days : List ℤ) : ℚ :=
  if days = [] then 7 else ((days.sum : ℚ) / (days.length : ℚ))

/-- `CongestionAnalyzer.calculate_fixture_congestion(team_id, gameweek)`;
the gameweek window is `[max(1, gw-2), min(38, gw+2)]`. -/
def calculate_fixture_congestion (s : List Row) (team_id gameweek : ℤ) : CongestionProfile :=
  let fixtures := s.filter (congRowPred team_id (max 1 (gameweek - 2)) (min 38 (gameweek + 2)))
  if fixtures = [] then
    { fixture_count := 0
      congestion_level := "none"
      congestion_score := 0
      days_between_fixtures := []
      has_european_football := europeanTeams.contains team_id }
  else
    let days := daysBetween (sortAscQ (fixtures.filterMap (fun r => parseKick r.kickoff_time)))
    let avg := avgDaysOf days
    { fixture_count := fixtures.length
      congestion_level := (classifyCongestion fixtures.length avg).1
      congestion_score := finalCongestionScore fixtures.length (europeanTeams.contains team_id) avg
      days_between_fixtures := days
      has_european_football := europeanTeams.contains team_id }

/-! ### AdvancedDifficultyCalculator -/

/-- `_calculate_form_multiplier`: relative form scaled by `/200`, home
factor `0.9` / away factor `1.1`, clamped to `[0.5, 1.5]`. -/
def _calculate_form_multiplier (team_form opponent_form : FormSnapshot)
    (is_home : Bool) : ℚ :=
  let form_difference := opponent_form.form_score - team_form.form_score
  let base_multiplier := 1 + form_difference / 200
  let base_multiplier := if is_home then base_multiplier * (9/10) else base_multiplier * (11/10)
  max (1/2) (min (3/2) base_multiplier)

/-- `_calculate_favorability_score`: difficulty inverse, form bonus,
home bonus, head-to-head bonus, congestion penalty, clamped `[0,100]`. -/
def _calculate_favorability_score (base_difficulty : ℤ) (team_form opponent_form : FormSnapshot)
    (h2h : H2HRecord) (congestion : CongestionProfile) (is_home : Bool) : ℚ :=
  let base_score : ℚ := ((6 - base_difficulty : ℤ) : ℚ) * 15
  let base_score := base_score + (team_form.form_score - opponent_form.form_score) / 4
  let base_score := if is_home then base_score + 10 else base_score
  let base_score := base_score + (h2h.team1_win_rate - 1/2) * 20
  let base_score := base_score - congestion.congestion_score * 15
  max 0 (min 100 base_score)

/-- `_calculate_final_difficulty`: form-adjusted difficulty plus
congestion and head-to-head adjustments, clamped `[1,10]`. -/
def _calculate_final_difficulty (base_difficulty : ℤ) (form_multiplier congestion_score
    h2h_win_rate : ℚ) : ℚ :=
  let difficulty := (base_difficulty : ℚ) * form_multiplier
  let difficulty := difficulty + congestion_score * 2
  let difficulty := difficulty + (1/2 - h2h_win_rate) * 2
  max 1 (min 10 difficulty)

/-- The pre-clamp confidence sum of `_calculate_confidence`. -/
def confidenceRaw (team_form opponent_form : FormSnapshot) (h2h : H2HRecord)
    (congestion : CongestionProfile) : ℤ :=
  50 + (if 5 ≤ team_form.games_played then 20
        else if 3 ≤ team_form.games_played then 10 else 0)
     + (if 5 ≤ opponent_form.games_played then 15
        else if 3 ≤ opponent_form.games_played then 8 else 0)
     + (if 6 ≤ h2h.total_games then 10
        else if 3 ≤ h2h.total_games then 5 else 0)
     - (if congestion.congestion_level = "high" then 15
        else if congestion.congestion_level = "medium" then 8 else 0)

/-- `_calculate_confidence`: the raw sum clamped by `max(0, min(100, ·))`. -/
def _calculate_confidence (team_form opponent_form : FormSnapshot) (h2h : H2HRecord)
    (congestion : CongestionProfile) : ℤ :=
  max 0 (min 100 (confidenceRaw team_form opponent_form h2h congestion))

/-- The loosely typed fixture dict handed to
`calculate_advanced_difficulty` (`gameweek` / `event` via `.get`). -/
structure FixtureDict where
  team_h : SVal
  team_a : SVal
  team_h_difficulty : SVal
  team_a_difficulty : SVal
  gameweek : Option SVal
  event : Option SVal
deriving DecidableEq

/-- `fixture.get('gameweek') or fixture.get('event', 1)`. -/
def gwField (fx : FixtureDict) : SVal :=
  match fx.gameweek with
  | some v => if truthy v then v else fx.event.getD (SVal.iv 1)
  | none => fx.event.getD (SVal.iv 1)

/-- The selected fields of the analysis dict returned by
`calculate_advanced_difficulty` (on the degraded path the nested dicts
carry only the listed keys, so just those shared keys are modelled). -/
structure DifficultyAnalysis where
  base_difficulty : ℤ
  advanced_difficulty : ℚ
  form_adjusted_difficulty : ℚ
  favorability_score : ℚ
  confidence : ℤ
  team_form_form_score : ℚ
  opponent_form_form_score : ℚ
  head_to_head_team1_win_rate : ℚ
  congestion_congestion_score : ℚ
  form_multiplier : ℚ
deriving DecidableEq

/-- Steps 2-7 of `calculate_advanced_difficulty` once the fixture
fields have been extracted: form, head-to-head, congestion, multiplier,
favorability, final difficulty and confidence over the store. -/
def mkFull (s : List Row) (team_id opponent_id gameweek base_difficulty : ℤ)
    (is_home : Bool) : DifficultyAnalysis :=
  { base_difficulty := base_difficulty
    advanced_difficulty := roundTo 2 (_calculate_final_difficulty base_difficulty
      (_calculate_form_multiplier (calculate_team_form s team_id 6)
        (calculate_team_form s opponent_id 6) is_home)
      (calculate_fixture_congestion s team_id gameweek).congestion_score
      (get_head_to_head_record s team_id opponent_id 3).team1_win_rate)
    form_adjusted_difficulty := roundTo 2 ((base_difficulty : ℚ) *
      _calculate_form_multiplier (calculate_team_form s team_id 6)
        (calculate_team_form s opponent_id 6) is_home)
    favorability_score := roundTo 1 (_calculate_favorability_score base_difficulty
      (calculate_team_form s team_id 6) (calculate_team_form s opponent_id 6)
      (get_head_to_head_record s team_id opponent_id 3)
      (calculate_fixture_congestion s team_id gameweek) is_home)
    confidence := _calculate_confidence (calculate_team_form s team_id 6)
      (calculate_team_form s opponent_id 6)
      (get_head_to_head_record s team_id opponent_id 3)
      (calculate_fixture_congestion s team_id gameweek)
    team_form_form_score := (calculate_team_form s team_id 6).form_score
    opponent_form_form_score := (calculate_team_form s opponent_id 6).form_score
    head_to_head_team1_win_rate := (get_head_to_head_record s team_id opponent_id 3).team1_win_rate
    congestion_congestion_score := (calculate_fixture_congestion s team_id gameweek).congestion_score
    form_multiplier := roundTo 2 (_calculate_form_multiplier (calculate_team_form s team_id 6)
      (calculate_team_form s opponent_id 6) is_home) }

/-- The `try` block of `calculate_advanced_difficulty`: every
`int(...)` field extraction may raise (`Option.bind`); once the fields
convert, the remaining pipeline is total over the store. -/
def tryCalc (s : List Row) (fx : FixtureDict) (team_id : ℤ) : Option DifficultyAnalysis :=
  (toInt fx.team_h).bind fun th =>
    ((if th = team_id then toInt fx.team_a else some th).bind fun opponent_id =>
      ((toInt (gwField fx)).bind fun gameweek =>
        ((if th = team_id then toInt fx.team_h_difficulty else toInt fx.team_a_difficulty).bind
          fun base_difficulty =>
            some (mkFull s team_id opponent_id gameweek base_difficulty
              (decide (th = team_id))))))

/-- The `except` handler: it re-runs `int(fixture['team_h'])` and the
side-appropriate `int(fixture[..._difficulty])`, so those conversions
can re-raise out of the handler; otherwise it returns the degraded
minimal dict. -/
def exceptCalc (fx : FixtureDict) (team_id : ℤ) : Option DifficultyAnalysis :=
  (toInt fx.team_h).bind fun th =>
    ((if th = team_id then toInt fx.team_h_difficulty else toInt fx.team_a_difficulty).bind
      fun base_difficulty =>
        some { base_difficulty := base_difficulty
               advanced_difficulty := (base_difficulty : ℚ)
               form_adjusted_difficulty := (base_difficulty : ℚ)
               favorability_score := ((6 - base_difficulty : ℤ) : ℚ) * 20
               confidence := 50
               team_form_form_score := 50
               opponent_form_form_score := 50
               head_to_head_team1_win_rate := 1/2
               congestion_congestion_score := 1/5
               form_multiplier := 1 })

/-- `AdvancedDifficultyCalculator.calculate_advanced_difficulty`:
`none` models an exception escaping to the caller. -/
def calculate_advanced_difficulty (s : List Row) (fx : FixtureDict)
    (team_id : ℤ) : Option DifficultyAnalysis :=
  match tryCalc s fx team_id with
  | some r => some r
  | none => exceptCalc fx team_id

/-- The call returned (did not raise) and its confidence is at most `b`. -/
def confidenceBoundedBy (o : Option DifficultyAnalysis) (b : ℤ) : Bool :=
  match o with
  | none => false
  | some r => decide (r.confidence ≤ b)

/-! ### FixtureAgent recommendation -/

/-- `FixtureAgent._generate_fixture_recommendation`. -/
def _generate_fixture_recommendation (avg_difficulty : ℚ) (easy_fixtures hard_fixtures : ℕ)
    (congestion_level : String) : String :=
  if avg_difficulty ≤ 2 ∧ 3 ≤ easy_fixtures then "EXCELLENT - Strong target for transfers"
  else if avg_difficulty ≤ 5/2 ∧ 2 ≤ easy_fixtures then "GOOD - Consider for transfers"
  else if 4 ≤ avg_difficulty ∨ 3 ≤ hard_fixtures then "AVOID - Difficult fixture run"
  else if congestion_level = "high" then "CAUTION - High fixture congestion"
  else "NEUTRAL - Average fixture difficulty"

/-! ### Concrete scenario data -/

/-- An empty head-to-head record (neutral win rate `0.5`). -/
def emptyH2H : H2HRecord := ⟨0, 0, 0, 0, 1/2⟩

/-- A low-congestion profile with score `0.2`, as in the favorability
scenario of the specification. -/
def lowCongestion : CongestionProfile := ⟨1, "low", 1/5, [], false⟩

/-- A well-formed fixture dict: home team 20 vs away team 21,
difficulties 3/3, gameweek 10. -/
def demoFixture : FixtureDict :=
  ⟨SVal.iv 20, SVal.iv 21, SVal.iv 3, SVal.iv 3, some (SVal.iv 10), none⟩

/-- Five finished 2-0 home wins of team 20 (gameweeks 1-5), and nothing
at all for team 21: the stored history behind the C1 counterexample. -/
def c1Store : List Row :=
  [⟨20, 30, SVal.iv 2, SVal.iv 0, KVal.time 0, true, 1⟩,
   ⟨20, 31, SVal.iv 2, SVal.iv 0, KVal.time 7, true, 2⟩,
   ⟨20, 32, SVal.iv 2, SVal.iv 0, KVal.time 14, true, 3⟩,
   ⟨20, 33, SVal.iv 2, SVal.iv 0, KVal.time 21, true, 4⟩,
   ⟨20, 34, SVal.iv 2, SVal.iv 0, KVal.time 28, true, 5⟩]

/-- A fixture whose side-appropriate difficulty field is malformed:
both the `try` block and the `except` handler raise on it. -/
def c2BadFixture : FixtureDict :=
  ⟨SVal.iv 20, SVal.iv 21, SVal.bad, SVal.iv 3, some (SVal.iv 10), none⟩

/-- A fixture whose gameweek field is malformed but whose team and
difficulty fields are fine: the `try` block raises, the `except`
handler succeeds with the degraded result. -/
def c2GwBadFixture : FixtureDict :=
  ⟨SVal.iv 20, SVal.iv 21, SVal.iv 3, SVal.iv 3, some SVal.bad, none⟩

/-- The degraded minimal result for base difficulty 3. -/
def c2Degraded : DifficultyAnalysis := ⟨3, 3, 3, 60, 50, 50, 50, 1/2, 1/5, 1⟩

/-- Four fixtures of (non-continental) team 20 in gameweeks 9-11 with
kickoffs 3 days apart: the congestion scenario. -/
def c6Rows : List Row :=
  [⟨20, 30, SVal.null, SVal.null, KVal.time 0, false, 9⟩,
   ⟨20, 31, SVal.null, SVal.null, KVal.time 3, false, 10⟩,
   ⟨20, 32, SVal.null, SVal.null, KVal.time 6, false, 10⟩,
   ⟨20, 33, SVal.null, SVal.null, KVal.time 9, false, 11⟩]

/-- The same four fixtures for continental team 1. -/
def c6RowsE : List Row :=
  [⟨1, 30, SVal.null, SVal.null, KVal.time 0, false, 9⟩,
   ⟨1, 31, SVal.null, SVal.null, KVal.time 3, false, 10⟩,
   ⟨1, 32, SVal.null, SVal.null, KVal.time 6, false, 10⟩,
   ⟨1, 33, SVal.null, SVal.null, KVal.time 9, false, 11⟩]

/-- A store holding only an unfinished fixture of team 10: the form
query for team 10 finds no finished fixture with known scores. -/
def c7Store : List Row := [⟨10, 11, SVal.null, SVal.null, KVal.time 0, false, 1⟩]

/-- A clean finished 2-0 win of team 10. -/
def c8GoodRow : Row := ⟨10, 11, SVal.iv 2, SVal.iv 0, KVal.time 0, true, 1⟩

/-- A finished row of team 10 whose home score is malformed. -/
def c8BadRow : Row := ⟨10, 12, SVal.bad, SVal.iv 1, KVal.time 7, true, 2⟩

/-- The full analysis of `demoFixture` for team 20 over an empty store
(all neutral defaults, home side, base difficulty 3). -/
def demoResult : DifficultyAnalysis := ⟨3, 27/10, 27/10, 55, 50, 50, 50, 1/2, 0, 9/10⟩

/-! ### Rounding lemmas -/

theorem rhe_ge_floor (y : ℚ) : ⌊y⌋ ≤ rhe y := by
  unfold rhe; split_ifs <;> omega

theorem rhe_le_ceil (y : ℚ) : rhe y ≤ ⌈y⌉ := by
  unfold rhe
  split_ifs with h1 h2 h3
  · exact Int.floor_le_ceil y
  · have hlt : (⌊y⌋ : ℚ) < y := by linarith
    have := Int.lt_ceil.mpr hlt
    omega
  · exact Int.floor_le_ceil y
  · have h4 : (1 : ℚ)/2 ≤ y - ⌊y⌋ := le_of_not_lt h1
    have hlt : (⌊y⌋ : ℚ) < y := by linarith
    have := Int.lt_ceil.mpr hlt
    omega

/-- Rounding to `p` decimal places keeps a value inside an interval
whose endpoints are exact at that precision. -/
theorem roundTo_mem (p : ℕ) (a b : ℤ) (x : ℚ) (h1 : (a : ℚ) ≤ x * 10 ^ p)
    (h2 : x * 10 ^ p ≤ (b : ℚ)) :
    (a : ℚ) / 10 ^ p ≤ roundTo p x ∧ roundTo p x ≤ (b : ℚ) / 10 ^ p := by
  have hp : (0 : ℚ) < 10 ^ p := by positivity
  have hlo : a ≤ rhe (x * 10 ^ p) := le_trans (Int.le_floor.mpr h1) (rhe_ge_floor _)
  have hhi : rhe (x * 10 ^ p) ≤ b := le_trans (rhe_le_ceil _) (Int.ceil_le.mpr h2)
  have hlo2 : (a : ℚ) ≤ (rhe (x * 10 ^ p) : ℚ) := by exact_mod_cast hlo
  have hhi2 : (rhe (x * 10 ^ p) : ℚ) ≤ (b : ℚ) := by exact_mod_cast hhi
  unfold roundTo
  constructor
  · gcongr
  · gcongr

/-! ### Query lemmas -/

theorem filter_empty_mono {α : Type} (l : List α) (p q : α → Bool)
    (h : l.filter p = []) (himp : ∀ a, q a = true → p a = true) :
    l.filter q = [] := by
  rw [List.filter_eq_nil_iff] at h ⊢
  intro a ha hq
  exact h a ha (himp a hq)

theorem formQuery_eq_nil (s : List Row) (team_id : ℤ) (games_back : ℕ)
    (h : s.filter (finishedInvolving team_id) = []) :
    formQuery s team_id games_back = [] := by
  unfold formQuery
  rw [filter_empty_mono s (finishedInvolving team_id) (formRowPred team_id) h]
  · simp [sortByKickDesc]
  · intro r hr
    unfold formRowPred at hr
    unfold finishedInvolving
    simp only [decide_eq_true_eq] at hr ⊢
    tauto

theorem h2hQuery_eq_nil (s : List Row) (team1_id team2_id : ℤ) (seasons_back : ℕ)
    (h : s.filter (finishedInvolving team2_id) = []) :
    h2hQuery s team1_id team2_id seasons_back = [] := by
  unfold h2hQuery
  rw [filter_empty_mono s (finishedInvolving team2_id) (h2hRowPred team1_id team2_id) h]
  · simp [sortByKickDesc]
  · intro r hr
    unfold h2hRowPred at hr
    unfold finishedInvolving
    simp only [decide_eq_true_eq] at hr ⊢
    tauto

/-- A team with no stored finished fixture gets the neutral snapshot. -/
theorem form_neutral_of_no_finished (s : List Row) (team_id : ℤ) (games_back : ℕ)
    (h : s.filter (finishedInvolving team_id) = []) :
    calculate_team_form s team_id games_back = neutralFormSnapshot := by
  unfold calculate_team_form
  rw [formQuery_eq_nil s team_id games_back h]
  rfl

/-- If the second team has no stored finished fixture, the head-to-head
record is empty with the neutral win rate. -/
theorem h2h_empty_of_no_finished (s : List Row) (team1_id team2_id : ℤ) (seasons_back : ℕ)
    (h : s.filter (finishedInvolving team2_id) = []) :
    get_head_to_head_record s team1_id team2_id seasons_back = emptyH2H := by
  unfold get_head_to_head_record
  rw [h2hQuery_eq_nil s team1_id team2_id seasons_back h]
  rfl

/-! ### Range lemmas for the difficulty fusion -/

theorem form_multiplier_mem (team_form opponent_form : FormSnapshot) (is_home : Bool) :
    1/2 ≤ _calculate_form_multiplier team_form opponent_form is_home ∧
    _calculate_form_multiplier team_form opponent_form is_home ≤ 3/2 := by
  unfold _calculate_form_multiplier
  exact ⟨le_max_left _ _, max_le (by norm_num) (min_le_left _ _)⟩

theorem favorability_mem (base_difficulty : ℤ) (team_form opponent_form : FormSnapshot)
    (h2h : H2HRecord) (congestion : CongestionProfile) (is_home : Bool) :
    0 ≤ _calculate_favorability_score base_difficulty team_form opponent_form h2h congestion is_home ∧
    _calculate_favorability_score base_difficulty team_form opponent_form h2h congestion is_home ≤ 100 := by
  unfold _calculate_favorability_score
  exact ⟨le_max_left _ _, max_le (by norm_num) (min_le_left _ _)⟩

theorem final_difficulty_mem (base_difficulty : ℤ)
    (form_multiplier congestion_score h2h_win_rate : ℚ) :
    1 ≤ _calculate_final_difficulty base_difficulty form_multiplier congestion_score h2h_win_rate ∧
    _calculate_final_difficulty base_difficulty form_multiplier congestion_score h2h_win_rate ≤ 10 := by
  unfold _calculate_final_difficulty
  exact ⟨le_max_left _ _, max_le (by norm_num) (min_le_left _ _)⟩

/-- The pre-clamp confidence sum always lies in `[35, 95]`. -/
theorem confidenceRaw_mem (team_form opponent_form : FormSnapshot) (h2h : H2HRecord)
    (congestion : CongestionProfile) :
    35 ≤ confidenceRaw team_form opponent_form h2h congestion ∧
    confidenceRaw team_form opponent_form h2h congestion ≤ 95 := by
  unfold confidenceRaw
  split_ifs <;> omega

/-- The `[0,100]` clamp of `_calculate_confidence` never binds. -/
theorem confidence_eq_raw (team_form opponent_form : FormSnapshot) (h2h : H2HRecord)
    (congestion : CongestionProfile) :
    _calculate_confidence team_form opponent_form h2h congestion =
      confidenceRaw team_form opponent_form h2h congestion := by
  have h := confidenceRaw_mem team_form opponent_form h2h congestion
  unfold _calculate_confidence
  rw [min_eq_right (by omega), max_eq_right (by omega)]

/-- Confidence is at most 70 once the opponent form is empty and the
head-to-head record has no games. -/
theorem confidence_le_70_of_empty_opponent (team_form opponent_form : FormSnapshot)
    (h2h : H2HRecord) (congestion : CongestionProfile)
    (hof : opponent_form.games_played = 0) (hh : h2h.total_games = 0) :
    _calculate_confidence team_form opponent_form h2h congestion ≤ 70 := by
  rw [confidence_eq_raw]
  unfold confidenceRaw
  rw [hof, hh]
  split_ifs <;> omega

/-- Integer-endpoint version of `roundTo_mem`. -/
theorem roundTo_mem_int (p : ℕ) (a b : ℤ) (x : ℚ) (h1 : (a : ℚ) ≤ x) (h2 : x ≤ (b : ℚ)) :
    (a : ℚ) ≤ roundTo p x ∧ roundTo p x ≤ (b : ℚ) := by
  have hp : (0 : ℚ) < 10 ^ p := by positivity
  have ha : ((a * 10 ^ p : ℤ) : ℚ) ≤ x * 10 ^ p := by
    push_cast
    exact mul_le_mul_of_nonneg_right h1 hp.le
  have hb : x * 10 ^ p ≤ ((b * 10 ^ p : ℤ) : ℚ) := by
    push_cast
    exact mul_le_mul_of_nonneg_right h2 hp.le
  have h := roundTo_mem p (a * 10 ^ p) (b * 10 ^ p) x ha hb
  have e1 : ((a * 10 ^ p : ℤ) : ℚ) / 10 ^ p = (a : ℚ) := by
    push_cast
    field_simp
  have e2 : ((b * 10 ^ p : ℤ) : ℚ) / 10 ^ p = (b : ℚ) := by
    push_cast
    field_simp
  rw [e1, e2] at h
  exact h

/-- Rounding a clamped form multiplier stays within `[0.5, 1.5]`. -/
theorem roundTo2_mult_mem (x : ℚ) (h1 : 1/2 ≤ x) (h2 : x ≤ 3/2) :
    1/2 ≤ roundTo 2 x ∧ roundTo 2 x ≤ 3/2 := by
  have h := roundTo_mem 2 50 150 x (by push_cast; norm_num; linarith)
    (by push_cast; norm_num; linarith)
  norm_num at h
  exact h

/-- The clamped confidence lies in `[0, 100]`. -/
theorem confidence_mem (team_form opponent_form : FormSnapshot) (h2h : H2HRecord)
    (congestion : CongestionProfile) :
    0 ≤ _calculate_confidence team_form opponent_form h2h congestion ∧
    _calculate_confidence team_form opponent_form h2h congestion ≤ 100 := by
  rw [confidence_eq_raw]
  have := confidenceRaw_mem team_form opponent_form h2h congestion
  omega

/-- Any value produced by the `try` block has the shape `mkFull …`. -/
theorem tryCalc_shape (s : List Row) (fx : FixtureDict) (team_id : ℤ)
    (r : DifficultyAnalysis) (h : tryCalc s fx team_id = some r) :
    ∃ opponent_id gameweek base_difficulty is_home,
      r = mkFull s team_id opponent_id gameweek base_difficulty is_home := by
  unfold tryCalc at h
  simp only [Option.bind_eq_some, Option.some.injEq] at h
  obtain ⟨th, _, opp, _, gw, _, bd, _, h5⟩ := h
  exact ⟨opp, gw, bd, decide (th = team_id), h5.symm⟩

/-- Any value produced by the `except` handler is the degraded minimal
result for the side-appropriate base difficulty. -/
theorem exceptCalc_shape (fx : FixtureDict) (team_id : ℤ) (d : DifficultyAnalysis)
    (h : exceptCalc fx team_id = some d) :
    ∃ base_difficulty : ℤ, d =
      ⟨base_difficulty, (base_difficulty : ℚ), (base_difficulty : ℚ),
        ((6 - base_difficulty : ℤ) : ℚ) * 20, 50, 50, 50, 1/2, 1/5, 1⟩ := by
  unfold exceptCalc at h
  simp only [Option.bind_eq_some, Option.some.injEq] at h
  obtain ⟨th, _, bd, _, h3⟩ := h
  exact ⟨bd, h3.symm⟩

/-- Confidence bounds for any successfully fused result. -/
theorem tryCalc_confidence_mem (s : List Row) (fx : FixtureDict) (team_id : ℤ)
    (r : DifficultyAnalysis) (h : tryCalc s fx team_id = some r) :
    35 ≤ r.confidence ∧ r.confidence ≤ 95 := by
  obtain ⟨opp, gw, bd, ih, rfl⟩ := tryCalc_shape s fx team_id r h
  simp only [mkFull]
  rw [confidence_eq_raw]
  exact confidenceRaw_mem _ _ _ _

/-- C3: on the non-degraded path the fused outputs satisfy the
documented ranges: `advanced_difficulty ∈ [1, 10]`,
`favorability_score ∈ [0, 100]`, `confidence ∈ [0, 100]` and
`form_multiplier ∈ [0.5, 1.5]`. -/
theorem c3_fused_output_ranges (s : List Row) (fx : FixtureDict) (team_id : ℤ)
    (r : DifficultyAnalysis) (h : tryCalc s fx team_id = some r) :
    1 ≤ r.advanced_difficulty ∧ r.advanced_difficulty ≤ 10 ∧
    0 ≤ r.favorability_score ∧ r.favorability_score ≤ 100 ∧
    0 ≤ r.confidence ∧ r.confidence ≤ 100 ∧
    1/2 ≤ r.form_multiplier ∧ r.form_multiplier ≤ 3/2 := by
  obtain ⟨opp, gw, bd, ih, rfl⟩ := tryCalc_shape s fx team_id r h
  simp only [mkFull]
  have hfd := final_difficulty_mem bd
    (_calculate_form_multiplier (calculate_team_form s team_id 6)
      (calculate_team_form s opp 6) ih)
    (calculate_fixture_congestion s team_id gw).congestion_score
    (get_head_to_head_record s team_id opp 3).team1_win_rate
  have hadv := roundTo_mem_int 2 1 10 _ (by exact_mod_cast hfd.1) (by exact_mod_cast hfd.2)
  have hfav := favorability_mem bd (calculate_team_form s team_id 6)
    (calculate_team_form s opp 6) (get_head_to_head_record s team_id opp 3)
    (calculate_fixture_congestion s team_id gw) ih
  have hfv := roundTo_mem_int 1 0 100 _ (by exact_mod_cast hfav.1) (by exact_mod_cast hfav.2)
  have hconf := confidence_mem (calculate_team_form s team_id 6)
    (calculate_team_form s opp 6) (get_head_to_head_record s team_id opp 3)
    (calculate_fixture_congestion s team_id gw)
  have hm := form_multiplier_mem (calculate_team_form s team_id 6)
    (calculate_team_form s opp 6) ih
  have hmm := roundTo2_mult_mem _ hm.1 hm.2
  refine ⟨by exact_mod_cast hadv.1, by exact_mod_cast hadv.2,
    by exact_mod_cast hfv.1, by exact_mod_cast hfv.2,
    hconf.1, hconf.2, hmm.1, hmm.2⟩

/-- C3 witness: the fused result of `demoFixture` for team 20 over an
empty store satisfies every documented range. -/
theorem c3_fused_output_ranges_witness :
    1 ≤ demoResult.advanced_difficulty ∧ demoResult.advanced_difficulty ≤ 10 ∧
    0 ≤ demoResult.favorability_score ∧ demoResult.favorability_score ≤ 100 ∧
    0 ≤ demoResult.confidence ∧ demoResult.confidence ≤ 100 ∧
    1/2 ≤ demoResult.form_multiplier ∧ demoResult.form_multiplier ≤ 3/2 :=
  c3_fused_output_ranges [] demoFixture 20 demoResult (by with_unfolding_all decide)

/-- C10: the confidence of any returned analysis lies in `[35, 95]`;
the `[0,100]` clamp of `_calculate_confidence` never binds (the clamped
value equals the raw sum, itself in `[35, 95]`), and the degraded path
always reports exactly 50. -/
theorem c10_confidence_range :
    (∀ (team_form opponent_form : FormSnapshot) (h2h : H2HRecord)
        (congestion : CongestionProfile),
      _calculate_confidence team_form opponent_form h2h congestion =
        confidenceRaw team_form opponent_form h2h congestion ∧
      35 ≤ confidenceRaw team_form opponent_form h2h congestion ∧
      confidenceRaw team_form opponent_form h2h congestion ≤ 95) ∧
    (∀ (fx : FixtureDict) (team_id : ℤ) (d : DifficultyAnalysis),
      exceptCalc fx team_id = some d → d.confidence = 50) ∧
    (∀ (s : List Row) (fx : FixtureDict) (team_id : ℤ) (r : DifficultyAnalysis),
      calculate_advanced_difficulty s fx team_id = some r →
      35 ≤ r.confidence ∧ r.confidence ≤ 95) := by
  refine ⟨fun tf ofm h2h cg => ⟨confidence_eq_raw tf ofm h2h cg,
    (confidenceRaw_mem tf ofm h2h cg).1, (confidenceRaw_mem tf ofm h2h cg).2⟩, ?_, ?_⟩
  · intro fx team_id d h
    obtain ⟨bd, rfl⟩ := exceptCalc_shape fx team_id d h
    rfl
  · intro s fx team_id r h
    unfold calculate_advanced_difficulty at h
    cases htc : tryCalc s fx team_id with
    | some r2 =>
      rw [htc] at h
      simp only [Option.some.injEq] at h
      subst h
      exact tryCalc_confidence_mem s fx team_id r2 htc
    | none =>
      rw [htc] at h
      obtain ⟨bd, rfl⟩ := exceptCalc_shape fx team_id r h
      norm_num

/-- C10 witness: concrete instances of the successful path (confidence
50 of the empty-store demo analysis lies in `[35, 95]`) and of the
degraded path (confidence exactly 50). -/
theorem c10_confidence_range_witness :
    (35 ≤ demoResult.confidence ∧ demoResult.confidence ≤ 95) ∧
    c2Degraded.confidence = 50 :=
  ⟨c10_confidence_range.2.2 [] demoFixture 20 demoResult (by with_unfolding_all decide),
   c10_confidence_range.2.1 c2GwBadFixture 20 c2Degraded (by with_unfolding_all decide)⟩

/-- C4: the favorability score equals the claimed closed form —
`(6 - base) * 15` plus the form difference over 4, plus 10 at home,
plus `(win_rate - 0.5) * 20`, minus `congestion * 15`, clamped to
`[0, 100]` — and the spec scenario (base 2, equal form, home, neutral
head-to-head, congestion 0.2) evaluates to 67. -/
theorem c4_favorability_formula :
    (∀ (base_difficulty : ℤ) (team_form opponent_form : FormSnapshot) (h2h : H2HRecord)
        (congestion : CongestionProfile) (is_home : Bool),
      _calculate_favorability_score base_difficulty team_form opponent_form h2h congestion
          is_home =
        max 0 (min 100 (((6 - base_difficulty : ℤ) : ℚ) * 15 +
          (team_form.form_score - opponent_form.form_score) / 4 +
          (if is_home then 10 else 0) +
          (h2h.team1_win_rate - 1/2) * 20 - congestion.congestion_score * 15))) ∧
    _calculate_favorability_score 2 neutralFormSnapshot neutralFormSnapshot emptyH2H
      lowCongestion true = 67 := by
  constructor
  · intro base_difficulty team_form opponent_form h2h congestion is_home
    unfold _calculate_favorability_score
    cases is_home <;> simp only [if_true, if_false, Bool.false_eq_true] <;> ring_nf
  · with_unfolding_all decide

/-- The score column of the congestion classification is antitone in
the average day gap for a fixed fixture count. -/
theorem classify_score_antitone (n : ℕ) (a1 a2 : ℚ) (h : a1 ≤ a2) :
    (classifyCongestion n a2).2 ≤ (classifyCongestion n a1).2 := by
  unfold classifyCongestion
  rcases Nat.lt_or_ge n 2 with hn | hn
  · have e4 : ¬(4 ≤ n) := by omega
    have e3 : ¬(3 ≤ n) := by omega
    have e2 : ¬(2 ≤ n) := by omega
    simp [e4, e3, e2]
  · rcases Nat.lt_or_ge n 3 with hn3 | hn3
    · have e4 : ¬(4 ≤ n) := by omega
      have e3 : ¬(3 ≤ n) := by omega
      simp only [e4, e3, hn, false_and, if_false, true_and]
      split_ifs <;> linarith
    · rcases Nat.lt_or_ge n 4 with hn4 | hn4
      · have e4 : ¬(4 ≤ n) := by omega
        have e2 : 2 ≤ n := by omega
        simp only [e4, hn3, e2, false_and, if_false, true_and]
        split_ifs <;> linarith
      · have e3 : 3 ≤ n := by omega
        have e2 : 2 ≤ n := by omega
        simp only [hn4, e3, e2, true_and]
        split_ifs <;> linarith

/-- C5: for a fixed fixture count (and continental flag), decreasing
the average day gap never decreases the congestion score, through the
ordered classification branches, the continental bonus and the clamp. -/
theorem c5_congestion_monotone (fixture_count : ℕ) (euro : Bool) (a1 a2 : ℚ)
    (h : a1 ≤ a2) :
    finalCongestionScore fixture_count euro a2 ≤ finalCongestionScore fixture_count euro a1 := by
  unfold finalCongestionScore
  exact min_le_min (add_le_add_right (classify_score_antitone fixture_count a1 a2 h) _) le_rfl

/-- C5 witness: at 4 fixtures, shrinking the average gap from 5 days to
3 days moves the score from 0.2 up to 0.8. -/
theorem c5_congestion_monotone_witness :
    finalCongestionScore 4 false 5 ≤ finalCongestionScore 4 false 3 :=
  c5_congestion_monotone 4 false 3 5 (by norm_num)

/-- C9: the fixture-run recommendation is a pure function of the
average difficulty, easy and hard counts and congestion level,
evaluated in order with the first matching branch winning, and the
spec scenario (avg 1.8, 3 easy, 0 hard, low congestion) is classified
EXCELLENT. -/
theorem c9_recommendation_order :
    (∀ (avg : ℚ) (easy hard : ℕ) (cl : String), avg ≤ 2 → 3 ≤ easy →
      _generate_fixture_recommendation avg easy hard cl =
        "EXCELLENT - Strong target for transfers") ∧
    (∀ (avg : ℚ) (easy hard : ℕ) (cl : String), ¬(avg ≤ 2 ∧ 3 ≤ easy) →
      avg ≤ 5/2 → 2 ≤ easy →
      _generate_fixture_recommendation avg easy hard cl = "GOOD - Consider for transfers") ∧
    (∀ (avg : ℚ) (easy hard : ℕ) (cl : String), ¬(avg ≤ 2 ∧ 3 ≤ easy) →
      ¬(avg ≤ 5/2 ∧ 2 ≤ easy) → (4 ≤ avg ∨ 3 ≤ hard) →
      _generate_fixture_recommendation avg easy hard cl = "AVOID - Difficult fixture run") ∧
    (∀ (avg : ℚ) (easy hard : ℕ) (cl : String), ¬(avg ≤ 2 ∧ 3 ≤ easy) →
      ¬(avg ≤ 5/2 ∧ 2 ≤ easy) → ¬(4 ≤ avg ∨ 3 ≤ hard) → cl = "high" →
      _generate_fixture_recommendation avg easy hard cl =
        "CAUTION - High fixture congestion") ∧
    (∀ (avg : ℚ) (easy hard : ℕ) (cl : String), ¬(avg ≤ 2 ∧ 3 ≤ easy) →
      ¬(avg ≤ 5/2 ∧ 2 ≤ easy) → ¬(4 ≤ avg ∨ 3 ≤ hard) → cl ≠ "high" →
      _generate_fixture_recommendation avg easy hard cl =
        "NEUTRAL - Average fixture difficulty") ∧
    _generate_fixture_recommendation (9/5) 3 0 "low" =
      "EXCELLENT - Strong target for transfers" := by
  refine ⟨?_, ?_, ?_, ?_, ?_, ?_⟩
  · intro avg easy hard cl h1 h2
    unfold _generate_fixture_recommendation
    rw [if_pos ⟨h1, h2⟩]
  · intro avg easy hard cl hn h1 h2
    unfold _generate_fixture_recommendation
    rw [if_neg hn, if_pos ⟨h1, h2⟩]
  · intro avg easy hard cl hn1 hn2 h1
    unfold _generate_fixture_recommendation
    rw [if_neg hn1, if_neg hn2, if_pos h1]
  · intro avg easy hard cl hn1 hn2 hn3 h1
    unfold _generate_fixture_recommendation
    rw [if_neg hn1, if_neg hn2, if_neg hn3, if_pos h1]
  · intro avg easy hard cl hn1 hn2 hn3 hn4
    unfold _generate_fixture_recommendation
    rw [if_neg hn1, if_neg hn2, if_neg hn3, if_neg hn4]
  · unfold _generate_fixture_recommendation
    norm_num

/-- C9 witness: one concrete input for each of the five ordered
branches (EXCELLENT, GOOD, AVOID, CAUTION, NEUTRAL). -/
theorem c9_recommendation_order_witness :
    _generate_fixture_recommendation (9/5) 3 0 "low" =
      "EXCELLENT - Strong target for transfers" ∧
    _generate_fixture_recommendation (12/5) 2 0 "low" = "GOOD - Consider for transfers" ∧
    _generate_fixture_recommendation 3 0 3 "low" = "AVOID - Difficult fixture run" ∧
    _generate_fixture_recommendation 3 0 0 "high" = "CAUTION - High fixture congestion" ∧
    _generate_fixture_recommendation 3 0 0 "low" = "NEUTRAL - Average fixture difficulty" :=
  ⟨c9_recommendation_order.1 (9/5) 3 0 "low" (by norm_num) (by norm_num),
   c9_recommendation_order.2.1 (12/5) 2 0 "low" (by norm_num) (by norm_num) (by norm_num),
   c9_recommendation_order.2.2.1 3 0 3 "low" (by norm_num) (by norm_num) (by norm_num),
   c9_recommendation_order.2.2.2.1 3 0 0 "high" (by norm_num) (by norm_num) (by norm_num) rfl,
   c9_recommendation_order.2.2.2.2.1 3 0 0 "low" (by norm_num) (by norm_num) (by norm_num)
     (by decide)⟩

/-- C7: a team with zero stored finished fixtures with known scores
gets the neutral snapshot — zero games, zero tallies, form score 50,
attack and defense strength 1 — without erroring. -/
theorem c7_neutral_snapshot (s : List Row) (team_id : ℤ) (games_back : ℕ)
    (h : s.filter (formRowPred team_id) = []) :
    calculate_team_form s team_id games_back = neutralFormSnapshot := by
  unfold calculate_team_form formQuery
  rw [h]
  simp [sortByKickDesc, formFromResults]

/-- C7 witness: a store holding only an unfinished fixture of team 10
yields the neutral snapshot for team 10. -/
theorem c7_neutral_snapshot_witness :
    calculate_team_form c7Store 10 6 = neutralFormSnapshot :=
  c7_neutral_snapshot c7Store 10 6 (by with_unfolding_all decide)

/-- A malformed row is a no-op for the form tally loop. -/
theorem formStep_skip (team_id : ℤ) (t : FormTally) (r : Row) (h : isGoodRow r = false) :
    formStep team_id t r = t := by
  unfold formStep
  cases hrs : rowScores r with
  | none => rfl
  | some v =>
    exfalso
    rw [isGoodRow, hrs] at h
    exact Bool.noConfusion h

/-- A malformed row is a no-op for the head-to-head tally loop. -/
theorem h2hStep_skip (team1_id : ℤ) (t : H2HTally) (r : Row) (h : isGoodRow r = false) :
    h2hStep team1_id t r = t := by
  unfold h2hStep
  cases hrs : rowScores r with
  | none => rfl
  | some v =>
    exfalso
    rw [isGoodRow, hrs] at h
    exact Bool.noConfusion h

theorem formTally_skip (team_id : ℤ) (l1 l2 : List Row) (r : Row)
    (h : isGoodRow r = false) :
    formTallyOf team_id (l1 ++ r :: l2) = formTallyOf team_id (l1 ++ l2) := by
  unfold formTallyOf
  rw [List.foldl_append, List.foldl_append, List.foldl_cons, formStep_skip team_id _ r h]

theorem h2hTally_skip (team1_id : ℤ) (l1 l2 : List Row) (r : Row)
    (h : isGoodRow r = false) :
    h2hTallyOf team1_id (l1 ++ r :: l2) = h2hTallyOf team1_id (l1 ++ l2) := by
  unfold h2hTallyOf
  rw [List.foldl_append, List.foldl_append, List.foldl_cons, h2hStep_skip team1_id _ r h]

/-- C8 (amended): a malformed result row is skipped without aborting;
the head-to-head record is exactly the one computed with the row
removed, and the form tallies (wins, draws, losses, goals) are those of
the reduced result set — but the form snapshot's `games_played` still
counts the skipped row (`len(results)`), and with it the form-score
denominator. -/
theorem c8_malformed_row_skipped (team_id team1_id : ℤ) (l1 l2 : List Row) (r : Row)
    (h : isGoodRow r = false) :
    h2hFromResults team1_id (l1 ++ r :: l2) = h2hFromResults team1_id (l1 ++ l2) ∧
    (formFromResults team_id (l1 ++ r :: l2)).wins =
      (formTallyOf team_id (l1 ++ l2)).wins ∧
    (formFromResults team_id (l1 ++ r :: l2)).draws =
      (formTallyOf team_id (l1 ++ l2)).draws ∧
    (formFromResults team_id (l1 ++ r :: l2)).losses =
      (formTallyOf team_id (l1 ++ l2)).losses ∧
    (formFromResults team_id (l1 ++ r :: l2)).goals_for =
      (formTallyOf team_id (l1 ++ l2)).goals_for ∧
    (formFromResults team_id (l1 ++ r :: l2)).goals_against =
      (formTallyOf team_id (l1 ++ l2)).goals_against ∧
    (formFromResults team_id (l1 ++ r :: l2)).games_played = (l1 ++ l2).length + 1 := by
  have hne : l1 ++ r :: l2 ≠ [] := by simp
  constructor
  · unfold h2hFromResults
    rw [h2hTally_skip team1_id l1 l2 r h]
  · unfold formFromResults
    rw [if_neg hne, formTally_skip team_id l1 l2 r h]
    refine ⟨rfl, rfl, rfl, rfl, rfl, ?_⟩
    simp [List.length_append]
    omega

/-- C8 witness: the skip behaviour at a concrete two-row result set
(one clean win, one malformed row). -/
theorem c8_malformed_row_skipped_witness :
    h2hFromResults 10 ([c8GoodRow] ++ c8BadRow :: []) =
      h2hFromResults 10 ([c8GoodRow] ++ []) ∧
    (formFromResults 10 ([c8GoodRow] ++ c8BadRow :: [])).wins =
      (formTallyOf 10 ([c8GoodRow] ++ [])).wins ∧
    (formFromResults 10 ([c8GoodRow] ++ c8BadRow :: [])).draws =
      (formTallyOf 10 ([c8GoodRow] ++ [])).draws ∧
    (formFromResults 10 ([c8GoodRow] ++ c8BadRow :: [])).losses =
      (formTallyOf 10 ([c8GoodRow] ++ [])).losses ∧
    (formFromResults 10 ([c8GoodRow] ++ c8BadRow :: [])).goals_for =
      (formTallyOf 10 ([c8GoodRow] ++ [])).goals_for ∧
    (formFromResults 10 ([c8GoodRow] ++ c8BadRow :: [])).goals_against =
      (formTallyOf 10 ([c8GoodRow] ++ [])).goals_against ∧
    (formFromResults 10 ([c8GoodRow] ++ c8BadRow :: [])).games_played =
      ([c8GoodRow] ++ ([] : List Row)).length + 1 :=
  c8_malformed_row_skipped 10 10 [c8GoodRow] [] c8BadRow (by with_unfolding_all decide)

/-- C8 counterexample: with one clean win and one malformed row in the
result set, the returned form snapshot does not equal the snapshot for
the set with the malformed row removed — the skipped row still counts
in `games_played` and halves the form score. -/
theorem c8_row_removal_counterexample :
    isGoodRow c8BadRow = false ∧
    calculate_team_form [c8GoodRow, c8BadRow] 10 6 ≠ calculate_team_form [c8GoodRow] 10 6 ∧
    (calculate_team_form [c8GoodRow, c8BadRow] 10 6).games_played = 2 ∧
    (calculate_team_form [c8GoodRow] 10 6).games_played = 1 ∧
    (calculate_team_form [c8GoodRow, c8BadRow] 10 6).wins = 1 ∧
    (calculate_team_form [c8GoodRow, c8BadRow] 10 6).form_score = 50 ∧
    (calculate_team_form [c8GoodRow] 10 6).form_score = 100 := by
  with_unfolding_all decide

/-- C2 (amended): once the `except` handler's own field extraction
succeeds, any failure of the `try` block degrades to the minimal
result — advanced and form-adjusted difficulty equal to the base
difficulty, favorability `(6 - base) * 20`, confidence 50 and neutral
form / head-to-head / congestion placeholders. -/
theorem c2_exception_policy :
    (∀ (s : List Row) (fx : FixtureDict) (team_id : ℤ), tryCalc s fx team_id = none →
      calculate_advanced_difficulty s fx team_id = exceptCalc fx team_id) ∧
    (∀ (fx : FixtureDict) (team_id : ℤ) (d : DifficultyAnalysis),
      exceptCalc fx team_id = some d →
      d.advanced_difficulty = (d.base_difficulty : ℚ) ∧
      d.form_adjusted_difficulty = (d.base_difficulty : ℚ) ∧
      d.favorability_score = (6 - (d.base_difficulty : ℚ)) * 20 ∧
      d.confidence = 50 ∧
      d.team_form_form_score = 50 ∧
      d.opponent_form_form_score = 50 ∧
      d.head_to_head_team1_win_rate = 1/2 ∧
      d.congestion_congestion_score = 1/5 ∧
      d.form_multiplier = 1) := by
  constructor
  · intro s fx team_id h
    unfold calculate_advanced_difficulty
    rw [h]
  · intro fx team_id d h
    obtain ⟨bd, rfl⟩ := exceptCalc_shape fx team_id d h
    refine ⟨rfl, rfl, ?_, rfl, rfl, rfl, rfl, rfl, rfl⟩
    push_cast
    ring

/-- C2 witness: a fixture with a malformed gameweek field makes the
`try` block fail while the handler returns the degraded result. -/
theorem c2_exception_policy_witness :
    calculate_advanced_difficulty [] c2GwBadFixture 20 = exceptCalc c2GwBadFixture 20 ∧
    (c2Degraded.advanced_difficulty = (c2Degraded.base_difficulty : ℚ) ∧
     c2Degraded.form_adjusted_difficulty = (c2Degraded.base_difficulty : ℚ) ∧
     c2Degraded.favorability_score = (6 - (c2Degraded.base_difficulty : ℚ)) * 20 ∧
     c2Degraded.confidence = 50 ∧
     c2Degraded.team_form_form_score = 50 ∧
     c2Degraded.opponent_form_form_score = 50 ∧
     c2Degraded.head_to_head_team1_win_rate = 1/2 ∧
     c2Degraded.congestion_congestion_score = 1/5 ∧
     c2Degraded.form_multiplier = 1) :=
  ⟨c2_exception_policy.1 [] c2GwBadFixture 20 (by with_unfolding_all decide),
   c2_exception_policy.2 c2GwBadFixture 20 c2Degraded (by with_unfolding_all decide)⟩

/-- C2 counterexample: a fixture whose side-appropriate difficulty
field is malformed makes both the `try` block and the handler's own
re-extraction raise, so the exception escapes to the caller. -/
theorem c2_never_raises_counterexample :
    tryCalc [] c2BadFixture 20 = none ∧
    exceptCalc c2BadFixture 20 = none ∧
    calculate_advanced_difficulty [] c2BadFixture 20 = none := by
  with_unfolding_all decide

/-- C1 (amended): for a well-formed fixture (integer fields, valid 1-5
ratings, positive gameweek) whose opponent has no stored finished
fixture, the calculator does not raise and returns confidence at most
70 (base 50, plus up to 20 for the analyzed team's own history, zero
opponent-form and head-to-head bonuses, minus any congestion penalty). -/
theorem c1_fallback_confidence (s : List Row) (fx : FixtureDict)
    (team_id th ta dh da gw : ℤ)
    (hth : fx.team_h = SVal.iv th) (hta : fx.team_a = SVal.iv ta)
    (hdh : fx.team_h_difficulty = SVal.iv dh) (hda : fx.team_a_difficulty = SVal.iv da)
    (hgw : fx.gameweek = some (SVal.iv gw)) (hgwpos : 0 < gw)
    (hd1 : 1 ≤ dh) (hd5 : dh ≤ 5) (he1 : 1 ≤ da) (he5 : da ≤ 5)
    (hopp : s.filter (finishedInvolving (if th = team_id then ta else th)) = []) :
    confidenceBoundedBy (calculate_advanced_difficulty s fx team_id) 70 = true := by
  have hne : gw ≠ 0 := by omega
  by_cases hhome : th = team_id
  · have hquery : s.filter (finishedInvolving ta) = [] := by rwa [if_pos hhome] at hopp
    have hofm := form_neutral_of_no_finished s ta 6 hquery
    have hh2h := h2h_empty_of_no_finished s team_id ta 3 hquery
    have htry : tryCalc s fx team_id = some (mkFull s team_id ta gw dh true) := by
      unfold tryCalc gwField
      rw [hth, hta, hdh, hda, hgw]
      simp [toInt, truthy, hhome, hne]
    have hcalc : calculate_advanced_difficulty s fx team_id =
        some (mkFull s team_id ta gw dh true) := by
      unfold calculate_advanced_difficulty
      rw [htry]
    rw [hcalc]
    unfold confidenceBoundedBy
    simp only [decide_eq_true_eq, mkFull]
    rw [hofm, hh2h]
    exact confidence_le_70_of_empty_opponent _ _ _ _ rfl rfl
  · have hquery : s.filter (finishedInvolving th) = [] := by rwa [if_neg hhome] at hopp
    have hofm := form_neutral_of_no_finished s th 6 hquery
    have hh2h := h2h_empty_of_no_finished s team_id th 3 hquery
    have htry : tryCalc s fx team_id = some (mkFull s team_id th gw da false) := by
      unfold tryCalc gwField
      rw [hth, hta, hdh, hda, hgw]
      simp [toInt, truthy, hhome, hne]
    have hcalc : calculate_advanced_difficulty s fx team_id =
        some (mkFull s team_id th gw da false) := by
      unfold calculate_advanced_difficulty
      rw [htry]
    rw [hcalc]
    unfold confidenceBoundedBy
    simp only [decide_eq_true_eq, mkFull]
    rw [hofm, hh2h]
    exact confidence_le_70_of_empty_opponent _ _ _ _ rfl rfl

/-- C1 witness: over an empty store the demo fixture returns (does not
raise) with confidence 50 ≤ 70. -/
theorem c1_fallback_confidence_witness :
    confidenceBoundedBy (calculate_advanced_difficulty [] demoFixture 20) 70 = true :=
  c1_fallback_confidence [] demoFixture 20 20 21 3 3 10 rfl rfl rfl rfl rfl
    (by norm_num) (by norm_num) (by norm_num) (by norm_num) (by norm_num) rfl

/-- C1 counterexample: team 20 has five stored wins while opponent 21
has no stored fixture at all; the call returns (does not raise) but its
confidence is 70, refuting the claimed bound of 50. -/
theorem c1_confidence_at_most_50_counterexample :
    c1Store.filter (finishedInvolving 21) = [] ∧
    (calculate_advanced_difficulty c1Store demoFixture 20).isSome = true ∧
    confidenceBoundedBy (calculate_advanced_difficulty c1Store demoFixture 20) 50 = false ∧
    (calculate_advanced_difficulty c1Store demoFixture 20).map
      DifficultyAnalysis.confidence = some 70 := by
  with_unfolding_all decide

/-- C6: the congestion profile applies the ordered classification
table, then the continental `+0.2` bonus, then the `≤ 1` clamp; an
empty window yields level `none` and score 0 with no bonus; and the
spec scenarios hold — four fixtures three days apart score 0.8
(level high) for a non-continental team and clamp to 1.0 for a
continental one. -/
theorem c6_congestion_assembly :
    (∀ (s : List Row) (team_id gameweek : ℤ),
      s.filter (congRowPred team_id (max 1 (gameweek - 2)) (min 38 (gameweek + 2))) = [] →
      calculate_fixture_congestion s team_id gameweek =
        ⟨0, "none", 0, [], europeanTeams.contains team_id⟩) ∧
    (∀ (fixture_count : ℕ) (euro : Bool) (avg : ℚ),
      finalCongestionScore fixture_count euro avg =
        min ((classifyCongestion fixture_count avg).2 + (if euro then 1/5 else 0)) 1) ∧
    calculate_fixture_congestion c6Rows 20 10 = ⟨4, "high", 4/5, [3, 3, 3], false⟩ ∧
    calculate_fixture_congestion c6RowsE 1 10 = ⟨4, "high", 1, [3, 3, 3], true⟩ := by
  refine ⟨?_, fun _ _ _ => rfl, by with_unfolding_all decide, by with_unfolding_all decide⟩
  intro s team_id gameweek h
  simp [calculate_fixture_congestion, h]

/-- C6 witness: an empty store gives the zero profile with level `none`
for continental team 1 (no bonus applied). -/
theorem c6_congestion_assembly_witness :
    calculate_fixture_congestion [] 1 10 = ⟨0, "none", 0, [], europeanTeams.contains 1⟩ :=
  c6_congestion_assembly.1 [] 1 10 rfl

end FantasyPL
